import Mathlib

/-!
Verification of the concurrency core of `kivy_voice_notes.py`, a single-file
Kivy voice-notes application.  The Python handlers (`on_record`,
`on_stop_button`, `on_speak`, `_update_buttons`, `_process_results_queue`,
`_tts_worker`, `_clear_tts_queue`, the `do_save` closure of `_save_dialog`)
are embedded as pure functions over an explicit application state, button
callbacks and worker loop iterations become transitions of an interleaving
step relation, and the claimed properties are proved or refuted below.
-/

namespace VoiceNotes

/-! ## Python string primitives used by the handlers -/

/-- Characters removed by Python's `str.strip()` with no argument. -/
def pySpace (c : Char) : Bool :=
  c = ' ' || c = '\t' || c = '\n' || c = '\r' || c = '\x0b' || c = '\x0c'

/-- Python `str.strip()`: drop leading and trailing whitespace. -/
def pyStrip (s : String) : String :=
  ⟨((s.data.dropWhile pySpace).reverse.dropWhile pySpace).reverse⟩

/-- Python `s.endswith(t)`: `t` is a suffix of `s`. -/
def pyEndsWith (s t : String) : Bool :=
  t.data.isSuffixOf s.data

/-! ## The TTS worker loop as a playback-event trace

`_tts_worker` runs on its own thread: at each iteration it first checks its
stop event, then dequeues one item (skipping falsy/empty ones), lazily
re-initialises the engine when the handle is `None`, and performs one
*blocking* playback call (`say` + `runAndWait`).  A playback exception
invalidates the engine handle, forcing a re-init before the next item.
`tts_worker_run` replays one worker generation over a fixed queue snapshot
(no concurrent enqueue/stop), emitting a `playStart`/`playEnd` event pair
for every playback invocation.  `playOk` is the oracle of playback
outcomes, consumed one entry per invocation; `initOk` tells whether a lazy
`pyttsx3.init()` succeeds. -/

inductive TtsEvent where
  | playStart (t : String)
  | playEnd (t : String)
deriving DecidableEq, Repr

def tts_worker_run (stopEv initOk : Bool) :
    Bool → List Bool → List String → List TtsEvent
  | _, _, [] => []
  | engine, playOk, t :: rest =>
    if stopEv then []
    else if t = "" then tts_worker_run stopEv initOk engine playOk rest
    else if engine || initOk then
      TtsEvent.playStart t :: TtsEvent.playEnd t ::
        tts_worker_run stopEv initOk (playOk.headD true) playOk.tail rest
    else tts_worker_run stopEv initOk engine playOk rest

/-- The texts whose playback was invoked, in invocation order. -/
def playbackStarts : List TtsEvent → List String
  | [] => []
  | TtsEvent.playStart t :: l => t :: playbackStarts l
  | TtsEvent.playEnd _ :: l => playbackStarts l

/-- A trace is serialized when every playback start is immediately
followed by the matching playback end: no second playback begins while
one is in flight. -/
inductive Serialized : List TtsEvent → Prop
  | nil : Serialized []
  | block (t : String) (l : List TtsEvent) :
      Serialized l → Serialized (TtsEvent.playStart t :: TtsEvent.playEnd t :: l)

theorem tts_run_starts_serial (initOk : Bool) (q : List String) :
    ∀ (engine : Bool) (playOk : List Bool),
      (∀ t ∈ q, t ≠ "") → initOk = true →
      playbackStarts (tts_worker_run false initOk engine playOk q) = q ∧
      Serialized (tts_worker_run false initOk engine playOk q) := by
  induction q with
  | nil => intro engine playOk _ _; exact ⟨rfl, Serialized.nil⟩
  | cons t rest ih =>
    intro engine playOk hq hinit
    have ht : t ≠ "" := hq t (List.mem_cons_self t rest)
    have hrest : ∀ u ∈ rest, u ≠ "" := fun u hu => hq u (List.mem_cons_of_mem t hu)
    subst hinit
    have hrec := ih (playOk.headD true) playOk.tail hrest rfl
    have hred : tts_worker_run false true engine playOk (t :: rest) =
        TtsEvent.playStart t :: TtsEvent.playEnd t ::
          tts_worker_run false true (playOk.headD true) playOk.tail rest := by
      simp [tts_worker_run, ht]
    rw [hred]
    exact ⟨by simp only [playbackStarts]; rw [hrec.1], Serialized.block t _ hrec.2⟩

/-! ## Application state

One record per mutable field of `VoiceNotesKivy` that the claims touch.
Threads are modelled explicitly: `tts_workers` has one entry per synthesis
thread ever spawned (`true` while its loop is still running), and
`tts_thread` is the `self.tts_thread` reference (`none` after
`self.tts_thread = None`).  `listen_threads` counts spawned capture
threads.  Engine handles are collapsed to presence (`self.tts_engine is
not None`).  Status updates via `Clock.schedule_once` land on the single
UI thread in order, so they are modelled as direct assignment. -/

structure AppState where
  is_listening : Bool
  listen_stop_event : Bool
  listen_threads : Nat
  results_queue : List String
  text_area : String
  status_label : String
  tts_engine : Bool
  is_speaking : Bool
  tts_workers : List Bool
  tts_thread : Option Nat
  tts_queue : List String
  tts_stop_event : Bool
deriving DecidableEq, Repr

/-- State after `build()` when both capabilities import successfully:
`self.tts_engine = pyttsx3.init()` is present, nothing running. -/
def init : AppState :=
  { is_listening := false, listen_stop_event := false, listen_threads := 0,
    results_queue := [], text_area := "", status_label := "Ready",
    tts_engine := true, is_speaking := false, tts_workers := [],
    tts_thread := none, tts_queue := [], tts_stop_event := false }

/-- `self.tts_thread and self.tts_thread.is_alive()`. -/
def threadAlive (s : AppState) : Bool :=
  match s.tts_thread with
  | none => false
  | some i => s.tts_workers.getD i false

/-- `on_record` (`srAvail` = `speech_recognition` imported and recognizer
built).  The missing-dependency popup leaves the state unchanged. -/
def on_record (srAvail : Bool) (s : AppState) : AppState :=
  if s.is_listening then s
  else if !srAvail then s
  else { s with is_listening := true, listen_stop_event := false,
                status_label := "Listening...",
                listen_threads := s.listen_threads + 1 }

/-- `on_speak` (`pyAvail` = `pyttsx3` imported; `initOk` = a lazy
`pyttsx3.init()` would succeed).  Mirrors the handler line by line:
dependency check, lazy engine re-init, blank check on the stripped
buffer, enqueue of the stripped text, then spawn of a worker when none
is alive (clearing the stop event first). -/
def on_speak (pyAvail initOk : Bool) (s : AppState) : AppState :=
  if !pyAvail then s
  else if !s.tts_engine && !initOk then s
  else
    let s1 := if s.tts_engine then s else { s with tts_engine := true }
    let text := pyStrip s1.text_area
    if text = "" then { s1 with status_label := "Nothing to speak." }
    else
      let s2 := { s1 with tts_queue := s1.tts_queue ++ [text],
                          status_label := "Queued for speaking..." }
      if threadAlive s2 then s2
      else { s2 with tts_stop_event := false,
                     tts_workers := s2.tts_workers ++ [true],
                     tts_thread := some s2.tts_workers.length }

/-- `on_stop_button`: signal the capture loop when listening; when
speaking or queued *and the engine handle is present*, set the TTS stop
event, drain the queue (`_clear_tts_queue`), best-effort `engine.stop()`,
null out engine and thread reference, clear `is_speaking`; otherwise,
when nothing was active, report "Nothing to stop.". -/
def on_stop_button (s : AppState) : AppState :=
  let s1 := if s.is_listening
            then { s with listen_stop_event := true,
                          status_label := "Stopping listening..." }
            else s
  let speaking_or_queued := s1.is_speaking || !s1.tts_queue.isEmpty
  let s2 := if speaking_or_queued && s1.tts_engine
            then { s1 with tts_stop_event := true, tts_queue := [],
                           tts_engine := false, tts_thread := none,
                           is_speaking := false, status_label := "Stopped." }
            else s1
  if !s2.is_listening && !speaking_or_queued
  then { s2 with status_label := "Nothing to stop." }
  else s2

/-- `on_new`. -/
def on_new (s : AppState) : AppState :=
  { s with text_area := "", status_label := "Cleared." }

/-- One chunk step of `_process_results_queue`: a falsy (empty) chunk is
dropped, a chunk lacking a trailing space gets one appended, then the
chunk is appended to the text area. -/
def drainChunk (b c : String) : String :=
  if c = "" then b
  else if pyEndsWith c " " then b ++ c
  else b ++ (c ++ " ")

/-- `_process_results_queue`: one poll tick drains every currently
queued chunk (the loop ends only on `queue.Empty`) and appends each to
the text area in arrival order. -/
def process_results_queue (s : AppState) : AppState :=
  { s with results_queue := [],
           text_area := s.results_queue.foldl drainChunk s.text_area }

/-- One iteration of worker `i`'s loop in `_tts_worker`, run atomically
between UI events: the loop-head stop-event check (exit path runs the
post-loop cleanup), the 0.2 s `get` timeout branch, the falsy-item skip,
lazy engine re-init (`initOk` its outcome), and one blocking playback
whose outcome is `playOk` (an exception invalidates the engine handle). -/
def tts_worker_step (initOk playOk : Bool) (i : Nat) (s : AppState) : AppState :=
  if !(s.tts_workers.getD i false) then s
  else if s.tts_stop_event then
    { s with tts_workers := s.tts_workers.set i false,
             is_speaking := false, status_label := "Ready" }
  else
    match s.tts_queue with
    | [] =>
      if s.is_speaking then { s with is_speaking := false, status_label := "Ready" }
      else s
    | t :: rest =>
      let s1 := { s with tts_queue := rest }
      if t = "" then s1
      else if !s1.tts_engine && !initOk then s1
      else
        let s2 := { s1 with tts_engine := true, is_speaking := true,
                            status_label := "Speaking..." }
        if playOk then s2
        else { s2 with tts_engine := false, status_label := "TTS error." }

/-! ## Interleaving of UI events and worker iterations -/

inductive Act where
  | record
  | stopBtn
  | speak
  | newNote
  | setText (t : String)
  | ttsStep (i : Nat) (playOk : Bool)
deriving DecidableEq, Repr

/-- One transition.  UI handlers run on the single Kivy thread and are
taken as atomic; both capabilities are available and engine init
succeeds in this schedule. -/
def step (s : AppState) : Act → AppState
  | Act.record => on_record true s
  | Act.stopBtn => on_stop_button s
  | Act.speak => on_speak true true s
  | Act.newNote => on_new s
  | Act.setText t => { s with text_area := t }
  | Act.ttsStep i playOk => tts_worker_step true playOk i s

def run (acts : List Act) (s : AppState) : AppState :=
  acts.foldl step s

/-- Number of synthesis worker threads whose loop is still running. -/
def liveTtsWorkers (s : AppState) : Nat :=
  s.tts_workers.countP (· = true)

/-! ## Button enablement -/

/-- The `disabled` flag of each button. -/
structure Buttons where
  record : Bool
  speak : Bool
  stop : Bool
  save : Bool
  load : Bool
  new : Bool
deriving DecidableEq, Repr

/-- `_update_buttons`, field by field. -/
def update_buttons (s : AppState) : Buttons :=
  let speaking_or_queued := s.is_speaking || !s.tts_queue.isEmpty
  { record := s.is_listening,
    speak := s.is_listening,
    stop := !(s.is_listening || speaking_or_queued),
    save := false, load := false, new := false }

/-- Modelled from the spec: the button-enablement table of §4.4 —
Record and Speak disabled iff CaptureState = Listening, Stop disabled
iff not (Listening or Speaking or UtteranceQueue non-empty),
Save/Load/New never disabled.  CaptureState = Listening is the
listening flag; SynthesisState = Speaking is the speaking flag. -/
def spec_button_table (s : AppState) : Buttons :=
  { record := s.is_listening,
    speak := s.is_listening,
    stop := !(s.is_listening || s.is_speaking || decide (s.tts_queue ≠ [])),
    save := false, load := false, new := false }

/-! ## Saving -/

/-- The default filename `on_save` builds from the current timestamp. -/
def default_name (ts : String) : String :=
  "note_" ++ ts ++ ".txt"

/-- The filename computed by the `do_save` closure of `_save_dialog`:
the stripped entered name, or the default when that is empty, given a
`.txt` suffix when it lacks one. -/
def do_save_name (entered dflt : String) : String :=
  let name := if pyStrip entered = "" then dflt else pyStrip entered
  if pyEndsWith name ".txt" then name else name ++ ".txt"

/-- POSIX `pathlib` absoluteness: a path is absolute when it starts
with `'/'`. -/
def pyIsAbsolute (s : String) : Bool :=
  match s.data with
  | [] => false
  | c :: _ => c = '/'

/-- The path written by `do_save`: `self.notes_dir / name` under
pathlib's joining rule — an absolute right operand replaces the base
entirely, otherwise the name is joined below the base with `'/'`. -/
def save_path (notesDir entered dflt : String) : String :=
  let name := do_save_name entered dflt
  if pyIsAbsolute name then name else notesDir ++ "/" ++ name

/-! ## Helper lemmas on the string primitives -/

theorem isPrefixOf_self_append (a b : List Char) :
    a.isPrefixOf (a ++ b) = true := by
  induction a with
  | nil => simp [List.isPrefixOf]
  | cons c cs ih => simp [List.isPrefixOf, ih]

theorem pyEndsWith_append (x t : String) :
    pyEndsWith (x ++ t) t = true := by
  show (t.data.reverse.isPrefixOf (x.data ++ t.data).reverse) = true
  rw [List.reverse_append]
  exact isPrefixOf_self_append t.data.reverse x.data.reverse

/-- What one non-empty chunk contributes to the text area: itself, plus
a single space when it does not already end with one. -/
def normChunk (c : String) : String :=
  if pyEndsWith c " " then c else c ++ " "

/-- What one whole tick of the poller appends to the text area. -/
def renderAll : List String → String
  | [] => ""
  | c :: cs => (if c = "" then "" else normChunk c) ++ renderAll cs

theorem foldl_drainChunk_eq_renderAll (q : List String) :
    ∀ b : String, q.foldl drainChunk b = b ++ renderAll q := by
  induction q with
  | nil => intro b; simp [renderAll]
  | cons c cs ih =>
    intro b
    rw [List.foldl_cons, ih (drainChunk b c), renderAll]
    by_cases hc : c = ""
    · simp [drainChunk, hc]
    · by_cases hsp : pyEndsWith c " " = true <;>
        simp [drainChunk, normChunk, hc, hsp, String.append_assoc]

/-- Modelled from the spec: "normalizes each chunk to end with exactly
one trailing space" — trailing spaces collapsed to a single one. -/
def spec_normalize_chunk (c : String) : String :=
  (⟨(c.data.reverse.dropWhile (· = ' ')).reverse⟩ : String) ++ " "

/-! ## Claims -/

/-- C1: within one synthesis-worker generation, playback invocations
occur in exactly the enqueue (FIFO) order, and no two playback calls
overlap: the worker emits each `playStart` immediately followed by its
`playEnd` before dequeuing anything else.  Utterances enqueued via
`on_speak` are the stripped, non-empty buffer, hence never `""`;
`playOk` lets individual playback calls fail (invalidating the engine,
which `initOk = true` then re-creates). -/
theorem c1_playback_fifo_serialized (q : List String) (playOk : List Bool)
    (hq : ∀ t ∈ q, t ≠ "") :
    playbackStarts (tts_worker_run false true true playOk q) = q ∧
    Serialized (tts_worker_run false true true playOk q) :=
  tts_run_starts_serial true q true playOk hq rfl

theorem c1_playback_fifo_serialized_witness :
    (∀ t ∈ ["Hello", "World"], t ≠ "") ∧
    (playbackStarts (tts_worker_run false true true [] ["Hello", "World"]) =
        ["Hello", "World"] ∧
      Serialized (tts_worker_run false true true [] ["Hello", "World"])) :=
  ⟨by decide, c1_playback_fifo_serialized ["Hello", "World"] [] (by decide)⟩

/-- C2 counterexample: in the reachable state after two Speaks and one
failed playback (the exception handler sets `self.tts_engine = None`
while `is_speaking` is still `true` and one utterance is still queued),
`on_stop_button` does not drain the queue, does not reach Idle and does
not report "Stopped.", because its TTS branch is guarded by
`speaking_or_queued and self.tts_engine`. -/
theorem c2_stop_engine_absent_cex :
    (run [Act.setText "a", Act.speak, Act.speak, Act.ttsStep 0 false]
        init).is_speaking = true ∧
    (on_stop_button (run [Act.setText "a", Act.speak, Act.speak,
        Act.ttsStep 0 false] init)).tts_queue = ["a"] ∧
    (on_stop_button (run [Act.setText "a", Act.speak, Act.speak,
        Act.ttsStep 0 false] init)).is_speaking = true ∧
    (on_stop_button (run [Act.setText "a", Act.speak, Act.speak,
        Act.ttsStep 0 false] init)).status_label ≠ "Stopped." := by
  decide

/-- C2 (amended): when Speaking or queued *and the engine handle is
present*, `on_stop_button` empties the utterance queue, returns the
synthesis state to Idle, invalidates the engine handle and reports
"Stopped.". -/
theorem c2_stop_drains_and_idles (s : AppState)
    (h : s.is_speaking = true ∨ s.tts_queue ≠ [])
    (heng : s.tts_engine = true) :
    (on_stop_button s).tts_queue = [] ∧
    (on_stop_button s).is_speaking = false ∧
    (on_stop_button s).tts_engine = false ∧
    (on_stop_button s).status_label = "Stopped." := by
  have hsoq : (s.is_speaking || !s.tts_queue.isEmpty) = true := by
    rcases h with h | h
    · simp [h]
    · simp [List.isEmpty_iff, h]
  cases hl : s.is_listening <;>
    simp [on_stop_button, hl, hsoq, heng]

theorem c2_stop_drains_and_idles_witness :
    (({ init with tts_queue := ["x"] } : AppState).is_speaking = true ∨
      ({ init with tts_queue := ["x"] } : AppState).tts_queue ≠ []) ∧
    ({ init with tts_queue := ["x"] } : AppState).tts_engine = true ∧
    ((on_stop_button { init with tts_queue := ["x"] }).tts_queue = [] ∧
      (on_stop_button { init with tts_queue := ["x"] }).is_speaking = false ∧
      (on_stop_button { init with tts_queue := ["x"] }).tts_engine = false ∧
      (on_stop_button { init with tts_queue := ["x"] }).status_label = "Stopped.") :=
  ⟨Or.inr (by decide), rfl,
    c2_stop_drains_and_idles { init with tts_queue := ["x"] }
      (Or.inr (by decide)) rfl⟩

/-- C3: the "at most one live SynthesisWorker" invariant fails.  After
Speak–Stop–Speak, with the first worker not yet back at its loop head,
`on_stop_button` has nulled `self.tts_thread` and the second `on_speak`
has cleared `self.tts_stop_event` before spawning a second thread; the
first worker then never sees the event set, so two worker loops are
alive — and both are still alive after each subsequently runs an
iteration. -/
theorem c3_two_live_workers_race :
    liveTtsWorkers (run [Act.setText "a", Act.speak, Act.stopBtn,
        Act.speak] init) = 2 ∧
    liveTtsWorkers (run [Act.setText "a", Act.speak, Act.stopBtn,
        Act.speak, Act.ttsStep 0 true, Act.ttsStep 1 true] init) = 2 := by
  decide

/-- C4 counterexample: the poller does not normalize a chunk to end
with *exactly one* trailing space.  For the chunk `"hi  "` (two
trailing spaces) `chunk.endswith(" ")` already holds, so the chunk is
appended verbatim, while the spec's normalization would yield `"hi "`. -/
theorem c4_exactly_one_space_cex :
    (process_results_queue { init with results_queue := ["hi  "] }).text_area =
      "hi  " ∧
    spec_normalize_chunk "hi  " = "hi " ∧
    (process_results_queue { init with results_queue := ["hi  "] }).text_area ≠
      ({ init with results_queue := ["hi  "] } : AppState).text_area ++
        spec_normalize_chunk "hi  " := by
  decide

/-- C4 (amended): one poller tick drains the whole results queue and
appends the chunks to the document buffer in arrival order, appending a
single space to each non-empty chunk that does not already end with a
space (chunks already space-terminated are appended verbatim, so extra
trailing spaces are preserved, not collapsed); in particular the queue
`["hello", "world"]` contributes exactly `"hello world "`. -/
theorem c4_drain_appends_normalized (s : AppState) :
    (process_results_queue s).results_queue = [] ∧
    (process_results_queue s).text_area =
      s.text_area ++ renderAll s.results_queue ∧
    (s.results_queue = ["hello", "world"] →
      (process_results_queue s).text_area = s.text_area ++ "hello world ") := by
  refine ⟨rfl, foldl_drainChunk_eq_renderAll s.results_queue s.text_area, ?_⟩
  intro h
  have hr : renderAll ["hello", "world"] = "hello world " := by decide
  calc (process_results_queue s).text_area
      = s.text_area ++ renderAll s.results_queue :=
        foldl_drainChunk_eq_renderAll s.results_queue s.text_area
    _ = s.text_area ++ "hello world " := by rw [h, hr]

theorem c4_drain_appends_normalized_witness :
    (process_results_queue
        { init with results_queue := ["hello", "world"] }).results_queue = [] ∧
    (process_results_queue
        { init with results_queue := ["hello", "world"] }).text_area =
      ({ init with results_queue := ["hello", "world"] } : AppState).text_area ++
        "hello world " :=
  ⟨(c4_drain_appends_normalized
      { init with results_queue := ["hello", "world"] }).1,
    (c4_drain_appends_normalized
      { init with results_queue := ["hello", "world"] }).2.2 rfl⟩

/-- C5: pressing Stop when not listening, not speaking and with an
empty utterance queue only sets the status to "Nothing to stop.";
every other field of the state — listening flag, both stop events, both
queues, engine handle, document buffer, threads — is unchanged. -/
theorem c5_stop_nothing_to_stop (s : AppState)
    (h1 : s.is_listening = false) (h2 : s.is_speaking = false)
    (h3 : s.tts_queue = []) :
    on_stop_button s = { s with status_label := "Nothing to stop." } := by
  simp [on_stop_button, h1, h2, h3]

theorem c5_stop_nothing_to_stop_witness :
    init.is_listening = false ∧ init.is_speaking = false ∧
      init.tts_queue = [] ∧
    on_stop_button init = { init with status_label := "Nothing to stop." } :=
  ⟨rfl, rfl, rfl, c5_stop_nothing_to_stop init rfl rfl rfl⟩

/-- C6: pressing Record while already listening returns at the first
guard of `on_record`: the state is completely unchanged — in
particular `listen_threads` does not grow, so no second capture worker
is spawned — whether or not the recognition capability is available. -/
theorem c6_record_while_listening_noop (srAvail : Bool) (s : AppState)
    (h : s.is_listening = true) :
    on_record srAvail s = s := by
  simp [on_record, h]

theorem c6_record_while_listening_noop_witness :
    ({ init with is_listening := true } : AppState).is_listening = true ∧
    on_record true { init with is_listening := true } =
      { init with is_listening := true } :=
  ⟨rfl, c6_record_while_listening_noop true { init with is_listening := true } rfl⟩

/-- C7: pressing Speak with a blank or whitespace-only document buffer
enqueues nothing, spawns no worker (worker list and thread reference
unchanged) and reports "Nothing to speak.", provided the TTS capability
is importable and, when the engine handle is absent, its lazy re-init
succeeds (the handler re-initialises the engine *before* the blank
check). -/
theorem c7_speak_blank_noop (initOk : Bool) (s : AppState)
    (hb : pyStrip s.text_area = "")
    (he : s.tts_engine = true ∨ initOk = true) :
    (on_speak true initOk s).tts_queue = s.tts_queue ∧
    (on_speak true initOk s).tts_workers = s.tts_workers ∧
    (on_speak true initOk s).tts_thread = s.tts_thread ∧
    (on_speak true initOk s).status_label = "Nothing to speak." := by
  cases hg : s.tts_engine
  · rcases he with he | he
    · rw [hg] at he; cases he
    · subst he; simp [on_speak, hg, hb]
  · cases initOk <;> simp [on_speak, hg, hb]

theorem c7_speak_blank_noop_witness :
    pyStrip ({ init with text_area := "  " } : AppState).text_area = "" ∧
    ((on_speak true true { init with text_area := "  " }).tts_queue =
        ({ init with text_area := "  " } : AppState).tts_queue ∧
      (on_speak true true { init with text_area := "  " }).tts_workers =
        ({ init with text_area := "  " } : AppState).tts_workers ∧
      (on_speak true true { init with text_area := "  " }).tts_thread =
        ({ init with text_area := "  " } : AppState).tts_thread ∧
      (on_speak true true { init with text_area := "  " }).status_label =
        "Nothing to speak.") :=
  ⟨by decide, c7_speak_blank_noop true { init with text_area := "  " }
    (by decide) (Or.inr rfl)⟩

theorem default_name_endswith_txt (ts : String) :
    pyEndsWith (default_name ts) ".txt" = true := by
  have h : default_name ts = ("note_" ++ ts) ++ ".txt" :=
    (String.append_assoc "note_" ts ".txt").symm
  rw [h]
  exact pyEndsWith_append ("note_" ++ ts) ".txt"

/-- C8 counterexample: the file is *not* always written inside the
fixed notes directory.  `pathlib`'s `/` discards the base when the
right operand is absolute, so entering `/tmp/evil` in the save dialog
writes `/tmp/evil.txt`, which does not lie under the notes
directory. -/
theorem c8_absolute_name_escapes_cex :
    save_path "notes" "/tmp/evil" (default_name "20240101_000000") =
      "/tmp/evil.txt" ∧
    ("notes" ++ "/").data.isPrefixOf
      (save_path "notes" "/tmp/evil" (default_name "20240101_000000")).data =
      false := by
  decide

/-- C8 (amended): in `do_save`, a blank or whitespace-only entered name
falls back to the timestamped default `note_YYYYMMDD_HHMMSS.txt`; an
entered name whose stripped form lacks the `.txt` suffix gets it
appended exactly once; the resulting filename always ends with `.txt`;
and the written path is the filename joined below the fixed notes
directory *whenever the resulting name is not an absolute path* — an
absolute entered name replaces the base under pathlib's joining rule
and escapes the notes directory. -/
theorem c8_save_name_normalization (entered ts notesDir : String) :
    (pyStrip entered = "" →
      do_save_name entered (default_name ts) = default_name ts) ∧
    (pyStrip entered ≠ "" → pyEndsWith (pyStrip entered) ".txt" = false →
      do_save_name entered (default_name ts) = pyStrip entered ++ ".txt") ∧
    pyEndsWith (do_save_name entered (default_name ts)) ".txt" = true ∧
    (pyIsAbsolute (do_save_name entered (default_name ts)) = false →
      ∃ r, (save_path notesDir entered (default_name ts)).data =
        (notesDir ++ "/").data ++ r) ∧
    (pyIsAbsolute (do_save_name entered (default_name ts)) = true →
      save_path notesDir entered (default_name ts) =
        do_save_name entered (default_name ts)) := by
  refine ⟨?_, ?_, ?_, ?_, ?_⟩
  · intro h
    simp [do_save_name, h, default_name_endswith_txt ts]
  · intro h hn
    simp [do_save_name, h, hn]
  · by_cases h : pyStrip entered = ""
    · simp [do_save_name, h, default_name_endswith_txt ts]
    · by_cases hn : pyEndsWith (pyStrip entered) ".txt" = true
      · simp [do_save_name, h, hn]
      · simp [do_save_name, h, hn, pyEndsWith_append]
  · intro habs
    exact ⟨(do_save_name entered (default_name ts)).data, by
      simp [save_path, habs, String.data_append, List.append_assoc]⟩
  · intro habs
    simp [save_path, habs]

theorem c8_save_name_normalization_witness :
    pyStrip "   " = "" ∧
    do_save_name "   " (default_name "20240101_000000") =
      default_name "20240101_000000" ∧
    pyStrip " draft " ≠ "" ∧
    pyEndsWith (pyStrip " draft ") ".txt" = false ∧
    do_save_name " draft " (default_name "20240101_000000") =
      pyStrip " draft " ++ ".txt" ∧
    pyIsAbsolute (do_save_name " draft " (default_name "20240101_000000")) =
      false ∧
    (∃ r, (save_path "notes" " draft " (default_name "20240101_000000")).data =
      ("notes" ++ "/").data ++ r) :=
  ⟨by decide,
    (c8_save_name_normalization "   " "20240101_000000" "notes").1 (by decide),
    by decide, by decide,
    (c8_save_name_normalization " draft " "20240101_000000" "notes").2.1
      (by decide) (by decide),
    by decide,
    (c8_save_name_normalization " draft " "20240101_000000" "notes").2.2.2.1
      (by decide)⟩

/-- C9: `_update_buttons` computes exactly the spec's enablement table:
Record and Speak disabled iff listening, Stop disabled iff not
(listening or speaking or utterance queue non-empty), Save/Load/New
never disabled. -/
theorem c9_button_table_refinement (s : AppState) :
    update_buttons s = spec_button_table s := by
  cases hq : s.tts_queue <;>
    simp [update_buttons, spec_button_table, hq]

/-- C10: an empty-string chunk dequeued during a poller tick is
silently discarded — the document buffer ends up exactly as if the
chunk had not been in the queue, and the remaining chunks of the same
tick are still drained and appended. -/
theorem c10_empty_chunk_discarded (s : AppState) (pre post : List String)
    (h : s.results_queue = pre ++ "" :: post) :
    (process_results_queue s).results_queue = [] ∧
    (process_results_queue s).text_area =
      (process_results_queue
        { s with results_queue := pre ++ post }).text_area := by
  refine ⟨rfl, ?_⟩
  simp only [process_results_queue, h]
  rw [List.foldl_append, List.foldl_append, List.foldl_cons]
  rfl

theorem c10_empty_chunk_discarded_witness :
    ({ init with results_queue := ["", "a"] } : AppState).results_queue =
      [] ++ "" :: ["a"] ∧
    ((process_results_queue
        { init with results_queue := ["", "a"] }).results_queue = [] ∧
      (process_results_queue
          { init with results_queue := ["", "a"] }).text_area =
        (process_results_queue
          { init with results_queue := ["a"] }).text_area) :=
  ⟨rfl, c10_empty_chunk_discarded
    { init with results_queue := ["", "a"] } [] ["a"] rfl⟩

end VoiceNotes
